import Mathlib

/-!
# Verification of the Chapter model (server/models/Chapter.js)

Shallow embedding of the Chapter data model and its operations:
`getSections`, `ChapterClass.addBookmark`, `ChapterClass.getBySlug` and
`ChapterClass.syncContent`.  External collaborators (the `marked` Markdown
renderer, the `he` entity decoder, the `generateSlug` utility and
`Book.getBySlug`, none of which are part of this source file) are abstracted
as function-valued parameters collected in `RenderEnv`, or passed as explicit
lookup arguments; the persistence layer (mongoose queries over collections)
is embedded as pure queries over lists of records.  Machine-level details:
JavaScript `undefined`/`null` values are embedded as `Option`, the JS `NaN`
arising from `parseInt` on a failed regex match is embedded as `Option.none`,
and thrown `Error`s are embedded as `Except.error` with the source's message
string.
-/

/-- An embedded section record: one per level-2 heading
(`sections` array in the mongoose schema). -/
structure Section where
  text : String
  level : Nat
  escapedText : String
deriving DecidableEq, Repr

/-- One heading callback issued by the `marked` renderer while parsing a
content string: the heading's raw text and its level, in document order.
`marked` itself is an external library; a content input is represented by
the stream of heading events `marked` issues for it (`RenderEnv.headings`). -/
structure HeadingEvent where
  text : String
  level : Nat
deriving DecidableEq, Repr

/-- A bookmark subdocument embedded in a `Purchase` record
(`{ chapterId, hash, text }` as pushed by `addBookmark`). -/
structure Bookmark where
  chapterId : Nat
  hash : String
  text : String
deriving DecidableEq, Repr

/-- A `Purchase` record: the fields `addBookmark` and `getBySlug` use
(`userId`, `bookId`, embedded `bookmarks`). -/
structure Purchase where
  userId : Nat
  bookId : Nat
  bookmarks : List Bookmark
deriving DecidableEq, Repr

/-- A `Book` record as seen from Chapter.js: its id and slug. -/
structure Book where
  id : Nat
  slug : String
deriving DecidableEq, Repr

/-- A `Chapter` document with the fields of the mongoose schema.
Mongo ObjectIds are embedded as `Nat`; `createdAt` as `Nat`;
`order` as `Option Nat` (`none` embeds the JS `NaN` produced when the
source path holds no digits, see `deriveOrder`). -/
structure Chapter where
  id : Nat
  bookId : Nat
  isFree : Bool
  githubFilePath : Option String
  title : String
  slug : String
  excerpt : String
  content : String
  htmlContent : String
  createdAt : Nat
  order : Option Nat
  seoTitle : String
  seoDescription : String
  sections : List Section
deriving DecidableEq, Repr

/-- The document store: the three collections Chapter.js queries. -/
structure Db where
  chapters : List Chapter
  books : List Book
  purchases : List Purchase
deriving DecidableEq, Repr

/-! ## Heading slugs and section extraction (`getSections`, lines 67-91) -/

/-- JS `\w`: ASCII letters, digits and underscore. -/
def isWordChar (c : Char) : Bool :=
  c.isAlpha || c.isDigit || c = '_'

/-- Whitespace as `String.prototype.trim` strips it (ASCII part). -/
def isSpaceChar (c : Char) : Bool :=
  c == ' ' || c == '\t' || c == '\n' || c == '\r'

/-- `text.trim()`: leading and trailing whitespace removed. -/
def trimChars (cs : List Char) : List Char :=
  ((cs.dropWhile isSpaceChar).reverse.dropWhile isSpaceChar).reverse

/-- `text.toLowerCase()` on an ASCII character. -/
def lowerChar (c : Char) : Char :=
  if c.toNat ≥ 65 && c.toNat ≤ 90 then Char.ofNat (c.toNat + 32) else c

/-- `replace(/[^\w]+/g, d)` where `d` is a hyphen: every maximal run of
non-word characters is replaced by a single hyphen.  The boolean argument
records whether the previous character was part of a non-word run. -/
def collapseNonWord : Bool → List Char → List Char
  | _, [] => []
  | inRun, c :: cs =>
    if isWordChar c then c :: collapseNonWord false cs
    else if inRun then collapseNonWord true cs
    else '-' :: collapseNonWord true cs

/-- The anchor slug of a heading: `text.trim().toLowerCase().replace(/[^\w]+/g, m)`
with `m` a hyphen (Chapter.js lines 76-79). -/
def escapeText (text : String) : String :=
  String.mk (collapseNonWord false ((trimChars text.data).map lowerChar))

/-- `getSections` (lines 67-91): a rendering pass whose heading callback
collects level-2 headings only, each as `{ text, level, escapedText }`,
in document order.  The input is the heading-event stream `marked` issues
for the content. -/
def getSections (headings : List HeadingEvent) : List Section :=
  headings.filterMap fun h =>
    if h.level == 2 then some ⟨h.text, h.level, escapeText h.text⟩ else none

/-! ## Order derivation (`syncContent`, lines 234-240) -/

/-- The first match of the regex `[0-9]+` in a character list: the first
maximal run of ASCII digits, or `none` when the list holds no digit. -/
def firstDigitRun : List Char → Option (List Char)
  | [] => none
  | c :: cs =>
    if c.isDigit then some (c :: cs.takeWhile Char.isDigit)
    else firstDigitRun cs

/-- Value of a digit string, as `parseInt(s, 10)` computes it. -/
def digitsToNat (ds : List Char) : Nat :=
  ds.foldl (fun a c => a * 10 + (c.toNat - '0'.toNat)) 0

/-- `parseInt(path.match(/[0-9]+/), 10)`: the first embedded integer of the
path, or `none` (JS `NaN`) when the path has no digit. -/
def matchFirstInt (path : String) : Option Nat :=
  (firstDigitRun path.data).map digitsToNat

/-- Order derivation of `syncContent` (lines 234-240): the literal path
`introduction.md` maps to order 1; any other path maps to its first embedded
integer plus one, which is `none` (JS `NaN`) when the path has no digit. -/
def deriveOrder (path : String) : Option Nat :=
  if path = "introduction.md" then some 1
  else (matchFirstInt path).map (· + 1)

example : deriveOrder "introduction.md" = some 1 := by decide
example : deriveOrder "chapter-03.md" = some 4 := by decide
example : deriveOrder "appendix.md" = none := by decide
example : escapeText "  Hello,  World! " = "hello-world-" := by decide

/-! ## Bookmarks (`addBookmark`, lines 148-178)

Lines 170-174 iterate `purchase.bookmarks` with the native `Array.prototype.forEach`
while `pull` removes matched subdocuments in place (mongoose arrays extend the
native array, and `pull` splices).  `forEach` re-reads the length on each step
and visits the element currently stored at the running index, so removing the
element at the cursor shifts the rest left and the element that follows a
removed one is never visited.  `pullBookmarksFuel` embeds exactly this: a
cursor `i` over the current array, removal by `eraseIdx` at the cursor.  The
`fuel` argument only makes the recursion structural: the cursor strictly
increases while the length never grows, so `arr.length` steps always reach
the `i < length` exit (see `pullBookmarksFuel_exit`). -/

/-- One `forEach` pass of lines 170-174 starting at cursor `i`:
if the element at `i` has the given `chapterId` it is pulled (erased in
place) and the cursor moves on over the shifted array, otherwise the cursor
just advances; the pass ends when the cursor reaches the current length. -/
def pullBookmarksFuel (chapterId : Nat) : Nat → Nat → List Bookmark → List Bookmark
  | 0, _, arr => arr
  | fuel + 1, i, arr =>
    if h : i < arr.length then
      if (arr.get ⟨i, h⟩).chapterId == chapterId then
        pullBookmarksFuel chapterId fuel (i + 1) (arr.eraseIdx i)
      else
        pullBookmarksFuel chapterId fuel (i + 1) arr
    else arr

/-- The full `forEach`/`pull` pass of lines 170-174. -/
def pullBookmarks (chapterId : Nat) (arr : List Bookmark) : List Bookmark :=
  pullBookmarksFuel chapterId arr.length 0 arr

/-- Effect of lines 170-175 on the bookmark array: the `forEach`/`pull` pass,
then `push({ chapterId, hash, text })`. -/
def addBookmarkList (bookmarks : List Bookmark) (chapterId : Nat)
    (hash text : String) : List Bookmark :=
  pullBookmarks chapterId bookmarks ++ [⟨chapterId, hash, text⟩]

/-- `ChapterClass.addBookmark` (lines 148-178).  `userId` is `Option` (JS
`undefined` is falsy); the three lookups are the embedded mongoose queries
`Chapter.findById(chapterId)`, `Book.findById(chapter.bookId)` and
`Purchase.findOne({ userId, bookId })`; a thrown `Error` is `Except.error`
with the source's message; on success the saved purchase is returned with
only its bookmark array changed. -/
def addBookmark (db : Db) (userId : Option Nat) (chapterId : Nat)
    (hash text : String) : Except String Purchase :=
  match userId with
  | none => .error "User is required"
  | some uid =>
    match db.chapters.find? (fun c => c.id == chapterId) with
    | none => .error "Chapter not found"
    | some chapter =>
      match db.books.find? (fun b => b.id == chapter.bookId) with
      | none => .error "Book not found"
      | some book =>
        match db.purchases.find? (fun p => p.userId == uid && p.bookId == book.id) with
        | none => .error "You have not bought this book."
        | some purchase =>
          .ok { purchase with
                bookmarks := addBookmarkList purchase.bookmarks chapterId hash text }

example :
    addBookmarkList [⟨1, "a", "x"⟩, ⟨2, "b", "y"⟩] 1 "c" "z"
      = [⟨2, "b", "y"⟩, ⟨1, "c", "z"⟩] := by decide

example :
    addBookmarkList [⟨1, "a", "x"⟩, ⟨1, "b", "y"⟩, ⟨2, "c", "z"⟩] 1 "d" "w"
      = [⟨1, "b", "y"⟩, ⟨2, "c", "z"⟩, ⟨1, "d", "w"⟩] := by decide

/-! ## Chapter retrieval (`getBySlug`, lines 180-216) -/

/-- The plain object `getBySlug` returns: `chapter.toObject()` with the book
attached (line 195), the optional `isPurchased` flag and `bookmark` set only
when a user id was supplied (lines 197-207), and `content` possibly deleted
(line 212, embedded as `content = none`). -/
structure ChapterObj where
  id : Nat
  bookId : Nat
  isFree : Bool
  githubFilePath : Option String
  title : String
  slug : String
  excerpt : String
  content : Option String
  htmlContent : String
  createdAt : Nat
  order : Option Nat
  seoTitle : String
  seoDescription : String
  sections : List Section
  book : Book
  isPurchased : Option Bool
  bookmark : Option Bookmark
deriving DecidableEq, Repr

/-- `chapter.toObject()` with `chapterObj.book = book` (lines 194-195). -/
def chapterToObj (c : Chapter) (book : Book) : ChapterObj :=
  { id := c.id, bookId := c.bookId, isFree := c.isFree
    githubFilePath := c.githubFilePath, title := c.title, slug := c.slug
    excerpt := c.excerpt, content := some c.content
    htmlContent := c.htmlContent, createdAt := c.createdAt, order := c.order
    seoTitle := c.seoTitle, seoDescription := c.seoDescription
    sections := c.sections, book := book
    isPurchased := none, bookmark := none }

/-- Lines 194-215 of `getBySlug`, once book and chapter are found: build
`chapter.toObject()` with the book attached; when a user id was supplied,
look the purchase up and set `isPurchased = !!purchase || isAdmin` (lines
198-200) and run the bookmark `forEach` of lines 202-206, which overwrites
`chapterObj.bookmark` on every bookmark of the purchase whose `chapterId`
equals the chapter's id, so the last such bookmark wins; line 209 reads
`chapterObj.isPurchased`, which is `undefined` (falsy) when no user id was
supplied, and line 212 deletes `content` when neither free nor purchased. -/
def getBySlugObj (db : Db) (book : Book) (chapter : Chapter)
    (userId : Option Nat) (isAdmin : Bool) : ChapterObj :=
  let chapterObj := chapterToObj chapter book
  let chapterObj :=
    match userId with
    | none => chapterObj
    | some uid =>
      let purchase :=
        db.purchases.find? (fun p => p.userId == uid && p.bookId == book.id)
      let bms := (purchase.map Purchase.bookmarks).getD []
      { chapterObj with
        isPurchased := some (purchase.isSome || isAdmin)
        bookmark := (bms.filter (fun b => chapter.id == b.chapterId)).getLast? }
  let isPurchased := chapter.isFree || chapterObj.isPurchased.getD false
  if isPurchased then chapterObj
  else { chapterObj with content := none }

/-- `ChapterClass.getBySlug` (lines 180-216).  `Book.getBySlug` lives in
Book.js, which is not part of this source file; per the spec it looks the
book up by slug and may apply its own access rules, so it is abstracted as
the function argument `bookGetBySlug`.  The chapter lookup is the embedded
mongoose query of line 188; a thrown `Error('Not found')` is
`Except.error "Not found"`. -/
def getBySlug (bookGetBySlug : String → Option Nat → Option Book) (db : Db)
    (bookSlug chapterSlug : String) (userId : Option Nat) (isAdmin : Bool) :
    Except String ChapterObj :=
  match bookGetBySlug bookSlug userId with
  | none => .error "Not found"
  | some book =>
    match db.chapters.find? (fun c => c.bookId == book.id && c.slug == chapterSlug) with
    | none => .error "Not found"
    | some chapter => .ok (getBySlugObj db book chapter userId isAdmin)

/-! ## Content synchronization (`syncContent`, lines 218-285) -/

/-- The external collaborators `syncContent` consumes, abstracted as
functions (they are libraries or sibling modules, not part of this file):
`render` is `markdownToHtml` (lines 10-65, `marked` with the configured
renderer over the entity-decoded content); `renderExcerpt` is
`marked(he.decode(excerpt))` (lines 258 and 270); `headings` is the stream
of heading callbacks `marked` issues for a content string (consumed by
`getSections`); `genSlug` is `generateSlug(Chapter, title, { bookId })` from
`../utils/slugify`, reading the existing chapter collection to make the slug
unique within the book. -/
structure RenderEnv where
  render : String → String
  renderExcerpt : String → String
  headings : String → List HeadingEvent
  genSlug : String → Nat → List Chapter → String

/-- The sync payload: `data.attributes` front matter (with the source's
defaults for absent fields, lines 219-225) plus `data.body` and `data.path`
(line 227). -/
structure SyncData where
  title : String
  excerpt : String
  isFree : Bool
  seoTitle : String
  seoDescription : String
  body : String
  path : String
deriving DecidableEq, Repr

/-- The `$set` modifier built on lines 266-282: the always-set mutable
fields, plus `title` and `slug` exactly when the payload title differs from
the stored chapter's title (`titleSlug = some (title, slug)`). -/
structure Modifier where
  content : String
  htmlContent : String
  sections : List Section
  excerpt : String
  isFree : Bool
  order : Option Nat
  seoTitle : String
  seoDescription : String
  titleSlug : Option (String × String)
deriving DecidableEq, Repr

/-- Lines 266-282: build the modifier for an existing `chapter` from the
payload `data`; `chapters` is the collection `generateSlug` reads. -/
def mkModifier (env : RenderEnv) (chapters : List Chapter) (data : SyncData)
    (chapter : Chapter) : Modifier :=
  { content := data.body
    htmlContent := env.render data.body
    sections := getSections (env.headings data.body)
    excerpt := env.renderExcerpt data.excerpt
    isFree := data.isFree
    order := deriveOrder data.path
    seoTitle := data.seoTitle
    seoDescription := data.seoDescription
    titleSlug :=
      if data.title = chapter.title then none
      else some (data.title, env.genSlug data.title chapter.bookId chapters) }

/-- `updateOne({ _id }, { $set: modifier })` applied to one document. -/
def applyModifier (c : Chapter) (m : Modifier) : Chapter :=
  let c := { c with
    content := m.content, htmlContent := m.htmlContent
    sections := m.sections, excerpt := m.excerpt, isFree := m.isFree
    order := m.order, seoTitle := m.seoTitle
    seoDescription := m.seoDescription }
  match m.titleSlug with
  | none => c
  | some ts => { c with title := ts.1, slug := ts.2 }

/-- The document created on lines 249-263 for a fresh chapter.  `freshId`
embeds the ObjectId the store mints, `now` embeds `new Date()`. -/
def newChapter (env : RenderEnv) (chapters : List Chapter) (book : Book)
    (data : SyncData) (freshId now : Nat) : Chapter :=
  { id := freshId
    bookId := book.id
    githubFilePath := some data.path
    title := data.title
    slug := env.genSlug data.title book.id chapters
    isFree := data.isFree
    content := data.body
    htmlContent := env.render data.body
    sections := getSections (env.headings data.body)
    excerpt := env.renderExcerpt data.excerpt
    order := deriveOrder data.path
    seoTitle := data.seoTitle
    seoDescription := data.seoDescription
    createdAt := now }

/-- The query of lines 229-232: find the chapter by
`{ bookId: book.id, githubFilePath: path }`. -/
def chapterSyncPred (book : Book) (data : SyncData) : Chapter → Bool :=
  fun c => c.bookId == book.id && c.githubFilePath == some data.path

/-- `updateOne({ _id: targetId }, { $set: modifier })` over one stored
document. -/
def updateBy (m : Modifier) (targetId : Nat) : Chapter → Chapter :=
  fun c => if c.id == targetId then applyModifier c m else c

/-- `ChapterClass.syncContent` (lines 218-285) as a transformer of the
chapter collection: look the chapter up by `(bookId, githubFilePath)`
(lines 229-232); if absent, append the freshly created document; if
present, apply the `$set` modifier to every document with the found
chapter's id (`updateOne` matches on `_id`, which the store keeps unique). -/
def syncContent (env : RenderEnv) (chapters : List Chapter) (book : Book)
    (data : SyncData) (freshId now : Nat) : List Chapter :=
  match chapters.find? (chapterSyncPred book data) with
  | none => chapters ++ [newChapter env chapters book data freshId now]
  | some chapter =>
    chapters.map (updateBy (mkModifier env chapters data chapter) chapter.id)

/-! ## Concrete instances used by witnesses and counterexamples -/

/-- A concrete paid chapter of book 10, used by the concrete
instantiations below. -/
def chapA : Chapter :=
  ⟨1, 10, false, some "chapter-1.md", "T", "t", "", "C", "H", 0, some 2, "", "", []⟩

/-- A store whose purchase holds two adjacent bookmarks of chapter 1. -/
def dbDup : Db :=
  ⟨[chapA], [⟨10, "bs"⟩], [⟨7, 10, [⟨1, "a", "x"⟩, ⟨1, "b", "y"⟩]⟩]⟩

/-- A store whose purchase satisfies the at-most-one-per-chapter invariant. -/
def dbOne : Db :=
  ⟨[chapA], [⟨10, "bs"⟩], [⟨7, 10, [⟨1, "a", "x"⟩, ⟨2, "b", "y"⟩]⟩]⟩

/-- A concrete stand-in for the external `Book.getBySlug`: finds book 10
under the slug `bs`. -/
def bookFnA : String → Option Nat → Option Book :=
  fun s _ => if s == "bs" then some ⟨10, "bs"⟩ else none

/-- A trivial rendering environment for concrete instantiations: identity
rendering, no headings, the title itself as slug. -/
def envA : RenderEnv :=
  ⟨id, id, fun _ => [], fun t _ _ => t⟩

/-! ## Helper lemmas -/

theorem firstDigitRun_eq_none {cs : List Char} :
    firstDigitRun cs = none ↔ ∀ c ∈ cs, c.isDigit = false := by
  induction cs with
  | nil => simp [firstDigitRun]
  | cons c cs ih =>
    by_cases h : c.isDigit = true
    · simp [firstDigitRun, h]
    · simp only [Bool.not_eq_true] at h
      simp [firstDigitRun, h, ih]

theorem getSections_eq_map_filter (hs : List HeadingEvent) :
    getSections hs =
      (hs.filter (fun h => h.level == 2)).map
        (fun h => ⟨h.text, h.level, escapeText h.text⟩) := by
  induction hs with
  | nil => rfl
  | cons h hs ih =>
    simp only [getSections, beq_iff_eq] at ih ⊢
    by_cases hl : h.level = 2
    · simp [List.filterMap_cons, List.filter_cons, hl, ih]
    · simp [List.filterMap_cons, List.filter_cons, hl, ih]

theorem deriveOrder_eq_none (path : String) :
    deriveOrder path = none ↔
      path ≠ "introduction.md" ∧ ∀ c ∈ path.data, c.isDigit = false := by
  by_cases hpath : path = "introduction.md"
  · simp [deriveOrder, hpath]
  · rw [deriveOrder, if_neg hpath, matchFirstInt, Option.map_eq_none',
      Option.map_eq_none', firstDigitRun_eq_none]
    simp [hpath]

/-- Fuel irrelevance of the `forEach` embedding: once the fuel covers the
remaining distance from the cursor to the array length, more fuel does not
change the result, so `arr.length` fuel from cursor 0 reaches the exit. -/
theorem pullBookmarksFuel_exit (chapterId : Nat) :
    ∀ (fuel i : Nat) (arr : List Bookmark), arr.length ≤ i + fuel →
      pullBookmarksFuel chapterId (fuel + 1) i arr
        = pullBookmarksFuel chapterId fuel i arr := by
  intro fuel
  induction fuel with
  | zero =>
    intro i arr hlen
    have : ¬ i < arr.length := by omega
    simp [pullBookmarksFuel, this]
  | succ fuel ih =>
    intro i arr hlen
    by_cases h : i < arr.length
    · rw [pullBookmarksFuel, dif_pos h]
      conv_rhs => rw [pullBookmarksFuel, dif_pos h]
      by_cases hm : (arr.get ⟨i, h⟩).chapterId == chapterId
      · rw [if_pos hm, if_pos hm]
        exact ih (i + 1) (arr.eraseIdx i) (by rw [List.length_eraseIdx_of_lt h]; omega)
      · rw [if_neg hm, if_neg hm]
        exact ih (i + 1) arr (by omega)
    · rw [pullBookmarksFuel, dif_neg h]
      conv_rhs => rw [pullBookmarksFuel, dif_neg h]

/-- The `forEach`/`pull` pass only erases elements: its result is a sublist
of its input. -/
theorem pullBookmarksFuel_sublist (chapterId : Nat) :
    ∀ (fuel i : Nat) (arr : List Bookmark),
      (pullBookmarksFuel chapterId fuel i arr).Sublist arr := by
  intro fuel
  induction fuel with
  | zero => intro i arr; exact List.Sublist.refl arr
  | succ fuel ih =>
    intro i arr
    rw [pullBookmarksFuel]
    by_cases h : i < arr.length
    · rw [dif_pos h]
      by_cases hm : (arr.get ⟨i, h⟩).chapterId == chapterId
      · rw [if_pos hm]
        exact (ih (i + 1) (arr.eraseIdx i)).trans (List.eraseIdx_sublist arr i)
      · rw [if_neg hm]
        exact ih (i + 1) arr
    · rw [dif_neg h]

/-- Erasing an element on which a filter predicate fails does not change
the filtered list. -/
theorem filter_eraseIdx_of_not {α : Type} {p : α → Bool} {arr : List α} {i : Nat}
    (h : i < arr.length) (hp : p (arr.get ⟨i, h⟩) = false) :
    (arr.eraseIdx i).filter p = arr.filter p := by
  conv_rhs => rw [← List.take_append_drop i arr]
  rw [List.eraseIdx_eq_take_drop_succ, List.filter_append, List.filter_append,
    List.drop_eq_getElem_cons h, List.filter_cons]
  simp only [List.get_eq_getElem] at hp
  rw [hp]
  simp

/-- The `forEach`/`pull` pass leaves every bookmark of a different chapter
in place (it erases only bookmarks of the target chapter). -/
theorem pullBookmarksFuel_filter_ne (chapterId : Nat) :
    ∀ (fuel i : Nat) (arr : List Bookmark),
      (pullBookmarksFuel chapterId fuel i arr).filter
          (fun b => !(b.chapterId == chapterId))
        = arr.filter (fun b => !(b.chapterId == chapterId)) := by
  intro fuel
  induction fuel with
  | zero => intro i arr; rfl
  | succ fuel ih =>
    intro i arr
    rw [pullBookmarksFuel]
    by_cases h : i < arr.length
    · rw [dif_pos h]
      by_cases hm : (arr.get ⟨i, h⟩).chapterId == chapterId
      · rw [if_pos hm, ih (i + 1) (arr.eraseIdx i)]
        refine filter_eraseIdx_of_not h ?_
        simp only [List.get_eq_getElem] at hm
        simp [hm]
      · rw [if_neg hm]
        exact ih (i + 1) arr
    · rw [dif_neg h]

/-- If the bookmarks of the target chapter all sit at positions the cursor
has not yet passed and there is at most one of them, the `forEach`/`pull`
pass removes them all. -/
theorem pullBookmarksFuel_removes (chapterId : Nat) :
    ∀ (fuel i : Nat) (arr : List Bookmark),
      (arr.take i).filter (fun b => b.chapterId == chapterId) = [] →
      ((arr.filter (fun b => b.chapterId == chapterId)).length ≤ 1) →
      arr.length ≤ i + fuel →
      (pullBookmarksFuel chapterId fuel i arr).filter
          (fun b => b.chapterId == chapterId) = [] := by
  intro fuel
  induction fuel with
  | zero =>
    intro i arr hpre _ hlen
    have : arr.take i = arr := List.take_of_length_le (by omega)
    rw [pullBookmarksFuel]
    rw [this] at hpre
    exact hpre
  | succ fuel ih =>
    intro i arr hpre hcount hlen
    rw [pullBookmarksFuel]
    by_cases h : i < arr.length
    · rw [dif_pos h]
      by_cases hm : (arr.get ⟨i, h⟩).chapterId == chapterId
      · rw [if_pos hm]
        -- the element at the cursor is the single bookmark of the chapter:
        -- after erasing it the array holds none, and the pass only shrinks it
        have hsplit : arr.filter (fun b => b.chapterId == chapterId)
            = (arr.take i).filter (fun b => b.chapterId == chapterId)
              ++ (arr.get ⟨i, h⟩)
                :: (arr.drop (i + 1)).filter (fun b => b.chapterId == chapterId) := by
          conv_lhs => rw [← List.take_append_drop i arr]
          rw [List.filter_append, List.drop_eq_getElem_cons h, List.filter_cons]
          simp only [List.get_eq_getElem] at hm
          rw [hm]
          rfl
        rw [hsplit, hpre] at hcount
        simp only [List.nil_append, List.length_cons] at hcount
        have hdrop : (arr.drop (i + 1)).filter (fun b => b.chapterId == chapterId)
            = [] := by
          rw [← List.length_eq_zero]
          omega
        have herase : (arr.eraseIdx i).filter (fun b => b.chapterId == chapterId)
            = [] := by
          rw [List.eraseIdx_eq_take_drop_succ, List.filter_append, hpre, hdrop]
          rfl
        have hsub := (pullBookmarksFuel_sublist chapterId fuel (i + 1)
          (arr.eraseIdx i)).filter (fun b => b.chapterId == chapterId)
        rw [herase, List.sublist_nil] at hsub
        exact hsub
      · rw [if_neg hm]
        refine ih (i + 1) arr ?_ hcount (by omega)
        rw [List.take_succ, List.filter_append, hpre, List.getElem?_eq_getElem h]
        simp only [List.get_eq_getElem, Bool.not_eq_true] at hm
        simp [hm]
    · rw [dif_neg h]
      have : arr.take i = arr := List.take_of_length_le (by omega)
      rw [this] at hpre
      exact hpre

/-! ## Claim theorems -/

/-- The filter of the whole bookmark pass: removed bookmarks all belong to
the target chapter, and under the at-most-one invariant the pass removes
every bookmark of the target chapter, so pushing the new one leaves it as
the single bookmark of that chapter. -/
theorem addBookmarkList_filter (bookmarks : List Bookmark) (chapterId : Nat)
    (hash text : String)
    (hinv : (bookmarks.filter (fun b => b.chapterId == chapterId)).length ≤ 1) :
    (addBookmarkList bookmarks chapterId hash text).filter
        (fun b => b.chapterId == chapterId) = [⟨chapterId, hash, text⟩] := by
  unfold addBookmarkList pullBookmarks
  rw [List.filter_append,
    pullBookmarksFuel_removes chapterId bookmarks.length 0 bookmarks (by simp)
      hinv (by omega)]
  simp

/-- Success shape of `addBookmark`: an `ok` result arises exactly from the
four lookups succeeding, and the returned purchase is the found one with
only its bookmark array replaced. -/
theorem addBookmark_ok_shape (db : Db) (userId : Option Nat) (chapterId : Nat)
    (hash text : String) (p' : Purchase)
    (hok : addBookmark db userId chapterId hash text = .ok p') :
    ∃ uid ch bk purchase, userId = some uid
      ∧ db.chapters.find? (fun c => c.id == chapterId) = some ch
      ∧ db.books.find? (fun b => b.id == ch.bookId) = some bk
      ∧ db.purchases.find? (fun q => q.userId == uid && q.bookId == bk.id)
          = some purchase
      ∧ p' = { purchase with
               bookmarks := addBookmarkList purchase.bookmarks chapterId hash text } := by
  cases userId with
  | none => exact absurd hok (by simp [addBookmark])
  | some uid =>
    simp only [addBookmark] at hok
    split at hok
    · exact absurd hok (by simp)
    rename_i ch hc
    split at hok
    · exact absurd hok (by simp)
    rename_i bk hb
    split at hok
    · exact absurd hok (by simp)
    rename_i purchase hp
    simp only [Except.ok.injEq] at hok
    exact ⟨uid, ch, bk, purchase, rfl, hc, hb, hp, hok.symm⟩

/-- C2 counterexample: on a purchase holding two adjacent bookmarks of
chapter 1, a successful `addBookmark` leaves two bookmarks of chapter 1:
the `forEach` pass pulls the first, which shifts the second under the
cursor, so it is skipped and survives, and the push then adds the new one.
The claim's at-most-one conclusion fails on this purchase record. -/
theorem c2_counterexample :
    addBookmark dbDup (some 7) 1 "c" "z"
      = .ok ⟨7, 10, [⟨1, "b", "y"⟩, ⟨1, "c", "z"⟩]⟩
    ∧ ¬ ((([⟨1, "b", "y"⟩, ⟨1, "c", "z"⟩] : List Bookmark).filter
          (fun b => b.chapterId == 1)).length ≤ 1) :=
  ⟨rfl, by decide⟩

/-- C2 amended: for every purchase record whose bookmark list holds at most
one bookmark per chapter beforehand, a successful `addBookmark` leaves
exactly one bookmark of the given chapter (the new one), so the
at-most-one-bookmark-per-chapter invariant is preserved; on arbitrary
records with adjacent duplicate bookmarks the in-place `pull` during
`forEach` can skip one and leave two (see the counterexample). -/
theorem c2_bookmark_unique (db : Db) (userId : Option Nat) (chapterId : Nat)
    (hash text : String) (p' : Purchase)
    (hok : addBookmark db userId chapterId hash text = .ok p')
    (hinv : ∀ q ∈ db.purchases,
      (q.bookmarks.filter (fun b => b.chapterId == chapterId)).length ≤ 1) :
    (p'.bookmarks.filter (fun b => b.chapterId == chapterId)).length ≤ 1
    ∧ p'.bookmarks.filter (fun b => b.chapterId == chapterId)
        = [⟨chapterId, hash, text⟩] := by
  obtain ⟨uid, ch, bk, purchase, hu, hc, hb, hp, hshape⟩ :=
    addBookmark_ok_shape db userId chapterId hash text p' hok
  have hmem : purchase ∈ db.purchases := List.mem_of_find?_eq_some hp
  have := addBookmarkList_filter purchase.bookmarks chapterId hash text
    (hinv purchase hmem)
  constructor
  · rw [hshape]
    simp only [this]
    simp
  · rw [hshape]
    exact this

/-- C2 witness: the amended theorem applied to the invariant-respecting
store `dbOne`. -/
theorem c2_bookmark_unique_witness :
    (((⟨7, 10, [⟨2, "b", "y"⟩, ⟨1, "c", "z"⟩]⟩ : Purchase).bookmarks.filter
        (fun b => b.chapterId == 1)).length ≤ 1) :=
  (c2_bookmark_unique dbOne (some 7) 1 "c" "z"
    ⟨7, 10, [⟨2, "b", "y"⟩, ⟨1, "c", "z"⟩]⟩ rfl (by decide)).1

/-- C7: `addBookmark` raises an error exactly when the user id is missing,
or no chapter with the given id exists, or the chapter's book does not
exist, or the caller has no purchase of that book; otherwise it saves the
purchase (with the new bookmark pushed) and succeeds. -/
theorem c7_add_bookmark_errors (db : Db) (userId : Option Nat)
    (chapterId : Nat) (hash text : String) :
    ((∃ p', addBookmark db userId chapterId hash text = .ok p') ↔
      ∃ uid ch bk purchase, userId = some uid
        ∧ db.chapters.find? (fun c => c.id == chapterId) = some ch
        ∧ db.books.find? (fun b => b.id == ch.bookId) = some bk
        ∧ db.purchases.find? (fun q => q.userId == uid && q.bookId == bk.id)
            = some purchase)
    ∧ (∀ uid ch bk purchase, userId = some uid →
        db.chapters.find? (fun c => c.id == chapterId) = some ch →
        db.books.find? (fun b => b.id == ch.bookId) = some bk →
        db.purchases.find? (fun q => q.userId == uid && q.bookId == bk.id)
            = some purchase →
        addBookmark db userId chapterId hash text
          = .ok { purchase with
                  bookmarks := addBookmarkList purchase.bookmarks chapterId hash text }) := by
  constructor
  · constructor
    · intro ⟨p', hok⟩
      obtain ⟨uid, ch, bk, purchase, hu, hc, hb, hp, _⟩ :=
        addBookmark_ok_shape db userId chapterId hash text p' hok
      exact ⟨uid, ch, bk, purchase, hu, hc, hb, hp⟩
    · intro ⟨uid, ch, bk, purchase, hu, hc, hb, hp⟩
      exact ⟨{ purchase with
               bookmarks := addBookmarkList purchase.bookmarks chapterId hash text },
        by simp [addBookmark, hu, hc, hb, hp]⟩
  · intro uid ch bk purchase hu hc hb hp
    simp [addBookmark, hu, hc, hb, hp]

/-- C7 witness: the theorem applied to the concrete store `dbOne`, where
every lookup succeeds. -/
theorem c7_add_bookmark_errors_witness :
    addBookmark dbOne (some 7) 1 "c" "z"
      = .ok { userId := 7, bookId := 10
              bookmarks := addBookmarkList [⟨1, "a", "x"⟩, ⟨2, "b", "y"⟩] 1 "c" "z" } :=
  (c7_add_bookmark_errors dbOne (some 7) 1 "c" "z").2 7 chapA ⟨10, "bs"⟩
    ⟨7, 10, [⟨1, "a", "x"⟩, ⟨2, "b", "y"⟩]⟩ rfl (by decide) (by decide) (by decide)

/-- C10: a successful `addBookmark` returns the found purchase with only
its bookmark array changed (user id and book id untouched), and within the
bookmark array every bookmark of a different chapter is left in place. -/
theorem c10_frame (db : Db) (userId : Option Nat) (chapterId : Nat)
    (hash text : String) (uid : Nat) (ch : Chapter) (bk : Book) (purchase : Purchase)
    (hu : userId = some uid)
    (hc : db.chapters.find? (fun c => c.id == chapterId) = some ch)
    (hb : db.books.find? (fun b => b.id == ch.bookId) = some bk)
    (hp : db.purchases.find? (fun q => q.userId == uid && q.bookId == bk.id)
      = some purchase) :
    addBookmark db userId chapterId hash text
      = .ok { purchase with
              bookmarks := addBookmarkList purchase.bookmarks chapterId hash text }
    ∧ (addBookmarkList purchase.bookmarks chapterId hash text).filter
          (fun b => !(b.chapterId == chapterId))
        = purchase.bookmarks.filter (fun b => !(b.chapterId == chapterId)) := by
  constructor
  · simp [addBookmark, hu, hc, hb, hp]
  · unfold addBookmarkList pullBookmarks
    rw [List.filter_append,
      pullBookmarksFuel_filter_ne chapterId purchase.bookmarks.length 0
        purchase.bookmarks]
    simp

/-- C10 witness: the theorem applied to the concrete store `dbOne`; the
chapter-2 bookmark survives unchanged. -/
theorem c10_frame_witness :
    addBookmark dbOne (some 7) 1 "c" "z"
      = .ok { userId := 7, bookId := 10
              bookmarks := addBookmarkList [⟨1, "a", "x"⟩, ⟨2, "b", "y"⟩] 1 "c" "z" }
    ∧ (addBookmarkList [⟨1, "a", "x"⟩, ⟨2, "b", "y"⟩] 1 "c" "z").filter
          (fun b => !(b.chapterId == 1))
        = ([⟨1, "a", "x"⟩, ⟨2, "b", "y"⟩] : List Bookmark).filter
            (fun b => !(b.chapterId == 1)) :=
  c10_frame dbOne (some 7) 1 "c" "z" 7 chapA ⟨10, "bs"⟩
    ⟨7, 10, [⟨1, "a", "x"⟩, ⟨2, "b", "y"⟩]⟩ rfl (by decide) (by decide) (by decide)

/-- C4: `syncContent` derives the chapter order as follows: the literal path
`introduction.md` yields order 1; any other path yields the first embedded
integer of the path plus one; in particular `chapter-03.md` yields 4. -/
theorem c4_order_derivation :
    deriveOrder "introduction.md" = some 1
    ∧ (∀ (path : String) (n : Nat), path ≠ "introduction.md" →
        matchFirstInt path = some n → deriveOrder path = some (n + 1))
    ∧ deriveOrder "chapter-03.md" = some 4 := by
  refine ⟨by decide, ?_, by decide⟩
  intro path n hpath hmatch
  simp [deriveOrder, hpath, hmatch]

/-- C4 witness: the theorem applied at the concrete path `chapter-7.md`,
whose first embedded integer is 7. -/
theorem c4_order_derivation_witness : deriveOrder "chapter-7.md" = some 8 :=
  c4_order_derivation.2.1 "chapter-7.md" 7 (by decide) (by decide)

/-- C9: for a path other than the literal `introduction.md` with no decimal
digit, the regex match is empty and the derived order is the JS `NaN`
(embedded as `none`); the computed order is a well-defined number exactly
when the path is `introduction.md` or holds at least one digit. -/
theorem c9_order_nan (path : String) :
    (path ≠ "introduction.md" → (∀ c ∈ path.data, c.isDigit = false) →
      deriveOrder path = none)
    ∧ ((deriveOrder path).isSome = true ↔
        path = "introduction.md" ∨ ∃ c ∈ path.data, c.isDigit = true) := by
  constructor
  · intro hpath hnodigit
    simp [deriveOrder, hpath, matchFirstInt, firstDigitRun_eq_none.mpr hnodigit]
  · rw [Option.isSome_iff_ne_none, Ne, deriveOrder_eq_none]
    push_neg
    constructor
    · intro h
      by_cases hpath : path = "introduction.md"
      · exact Or.inl hpath
      · obtain ⟨c, hc, hd⟩ := h hpath
        exact Or.inr ⟨c, hc, by simpa using hd⟩
    · intro h hpath
      rcases h with h | ⟨c, hc, hd⟩
      · exact absurd h hpath
      · exact ⟨c, hc, by simp [hd]⟩

/-- C9 witness: the theorem applied at `appendix.md` (no digits, not the
introduction), whose derived order is `none`. -/
theorem c9_order_nan_witness : deriveOrder "appendix.md" = none :=
  (c9_order_nan "appendix.md").1 (by decide) (by decide)

/-- C5: `getSections` yields the empty sequence when the content has no
level-2 heading, and otherwise exactly one section entry per level-2 heading
in document order, whose `escapedText` is the heading text trimmed,
lower-cased, with every run of non-word characters replaced by a single
hyphen (`escapeText`). -/
theorem c5_sections (hs : List HeadingEvent) :
    ((∀ h ∈ hs, h.level ≠ 2) → getSections hs = [])
    ∧ getSections hs =
        (hs.filter (fun h => h.level == 2)).map
          (fun h => ⟨h.text, h.level, escapeText h.text⟩) := by
  refine ⟨?_, getSections_eq_map_filter hs⟩
  intro hno
  rw [getSections_eq_map_filter]
  have : hs.filter (fun h => h.level == 2) = [] := by
    rw [List.filter_eq_nil_iff]
    intro h hmem
    simpa using hno h hmem
  simp [this]

/-- C5 witness: the theorem applied to a no-level-2 stream and a mixed
stream; the level-2 heading text `" My Heading! "` gets the anchor
`my-heading-`. -/
theorem c5_sections_witness :
    getSections [⟨"Intro", 1⟩, ⟨"Deep", 3⟩] = []
    ∧ getSections [⟨"A", 1⟩, ⟨" My Heading! ", 2⟩, ⟨"B", 4⟩]
        = [⟨" My Heading! ", 2, "my-heading-"⟩] :=
  ⟨(c5_sections [⟨"Intro", 1⟩, ⟨"Deep", 3⟩]).1 (by decide),
   ((c5_sections [⟨"A", 1⟩, ⟨" My Heading! ", 2⟩, ⟨"B", 4⟩]).2).trans (by decide)⟩

/-- Content of the object `getBySlug` builds once book and chapter are
found: `content` survives exactly when the chapter is free, or a user id
was supplied and that user holds a purchase of the book or the admin flag
is set; otherwise `content` is deleted. -/
theorem getBySlugObj_content (db : Db) (bk : Book) (ch : Chapter)
    (userId : Option Nat) (isAdmin : Bool) :
    ((getBySlugObj db bk ch userId isAdmin).content = some ch.content ↔
      (ch.isFree = true ∨ ∃ uid, userId = some uid ∧
        ((db.purchases.find? (fun p => p.userId == uid && p.bookId == bk.id)).isSome
            = true
          ∨ isAdmin = true)))
    ∧ ((getBySlugObj db bk ch userId isAdmin).content = some ch.content
        ∨ (getBySlugObj db bk ch userId isAdmin).content = none) := by
  cases userId with
  | none =>
    by_cases hfree : ch.isFree <;> simp [getBySlugObj, chapterToObj, hfree]
  | some uid =>
    by_cases hfree : ch.isFree
    · simp [getBySlugObj, chapterToObj, hfree]
    · by_cases hp : (db.purchases.find?
          (fun p => p.userId == uid && p.bookId == bk.id)).isSome
      · have hp' := hp
        simp at hp'
        simp [getBySlugObj, chapterToObj, hfree, hp, hp']
      · have hp' := hp
        simp at hp'
        by_cases hadm : isAdmin
        · simp [getBySlugObj, chapterToObj, hfree, hp, hadm]
        · simp [getBySlugObj, chapterToObj, hfree, hp, hadm]
          exact hp'

/-- All chapter fields other than `content` survive into the returned
object unchanged, the book is attached, and `content` is either the
chapter's content or deleted. -/
theorem getBySlugObj_fields (db : Db) (bk : Book) (ch : Chapter)
    (userId : Option Nat) (isAdmin : Bool) :
    (getBySlugObj db bk ch userId isAdmin).book = bk
    ∧ (getBySlugObj db bk ch userId isAdmin).id = ch.id
    ∧ (getBySlugObj db bk ch userId isAdmin).bookId = ch.bookId
    ∧ (getBySlugObj db bk ch userId isAdmin).isFree = ch.isFree
    ∧ (getBySlugObj db bk ch userId isAdmin).githubFilePath = ch.githubFilePath
    ∧ (getBySlugObj db bk ch userId isAdmin).title = ch.title
    ∧ (getBySlugObj db bk ch userId isAdmin).slug = ch.slug
    ∧ (getBySlugObj db bk ch userId isAdmin).excerpt = ch.excerpt
    ∧ (getBySlugObj db bk ch userId isAdmin).htmlContent = ch.htmlContent
    ∧ (getBySlugObj db bk ch userId isAdmin).createdAt = ch.createdAt
    ∧ (getBySlugObj db bk ch userId isAdmin).order = ch.order
    ∧ (getBySlugObj db bk ch userId isAdmin).seoTitle = ch.seoTitle
    ∧ (getBySlugObj db bk ch userId isAdmin).seoDescription = ch.seoDescription
    ∧ (getBySlugObj db bk ch userId isAdmin).sections = ch.sections
    ∧ ((getBySlugObj db bk ch userId isAdmin).content = some ch.content
        ∨ (getBySlugObj db bk ch userId isAdmin).content = none) := by
  cases userId with
  | none =>
    by_cases hfree : ch.isFree <;> simp [getBySlugObj, chapterToObj, hfree]
  | some uid =>
    by_cases hk : (ch.isFree || ((db.purchases.find?
        (fun p => p.userId == uid && p.bookId == bk.id)).isSome || isAdmin)) <;>
      simp [getBySlugObj, chapterToObj, hk]

/-- C1 counterexample: on the store `dbOne` the book and the paid chapter
are both found and the admin flag is set, yet — because no user id was
supplied — the purchase block of lines 197-207 is skipped, `isPurchased`
stays unset, and the returned object has no `content` field.  The claim
states that a call with the admin flag set always returns `content`. -/
theorem c1_counterexample :
    chapA.isFree = false
    ∧ (getBySlug bookFnA dbOne "bs" "t" none true).map ChapterObj.content
        = .ok none :=
  ⟨rfl, rfl⟩

/-- C1 amended: when `getBySlug` finds both the book and the chapter, the
returned object lacks `content` exactly when the chapter is not free and
not (a user id was supplied and (that user has a purchase of the book or
the admin flag is set)); in particular the admin flag grants access only
together with a supplied user id, and the `content` field, when present,
holds the chapter's content. -/
theorem c1_content_gating (f : String → Option Nat → Option Book) (db : Db)
    (bookSlug chapterSlug : String) (userId : Option Nat) (isAdmin : Bool)
    (bk : Book) (ch : Chapter)
    (hbk : f bookSlug userId = some bk)
    (hch : db.chapters.find?
      (fun c => c.bookId == bk.id && c.slug == chapterSlug) = some ch) :
    getBySlug f db bookSlug chapterSlug userId isAdmin
      = .ok (getBySlugObj db bk ch userId isAdmin)
    ∧ ((getBySlugObj db bk ch userId isAdmin).content = some ch.content ↔
        (ch.isFree = true ∨ ∃ uid, userId = some uid ∧
          ((db.purchases.find? (fun p => p.userId == uid && p.bookId == bk.id)).isSome
              = true
            ∨ isAdmin = true)))
    ∧ ((getBySlugObj db bk ch userId isAdmin).content = some ch.content
        ∨ (getBySlugObj db bk ch userId isAdmin).content = none) :=
  ⟨by simp [getBySlug, hbk, hch],
   (getBySlugObj_content db bk ch userId isAdmin).1,
   (getBySlugObj_content db bk ch userId isAdmin).2⟩

/-- C1 witness: the amended theorem applied to the store `dbOne` with user
7, who holds a purchase of book 10: the paid chapter's content is
returned. -/
theorem c1_content_gating_witness :
    (getBySlugObj dbOne ⟨10, "bs"⟩ chapA (some 7) false).content
      = some chapA.content :=
  ((c1_content_gating bookFnA dbOne "bs" "t" (some 7) false ⟨10, "bs"⟩ chapA rfl
      (by decide)).2.1).mpr (Or.inr ⟨7, rfl, Or.inl (by decide)⟩)

/-- C8: `getBySlug` raises `"Not found"` exactly when the book lookup by
book slug or the chapter lookup by (bookId, chapter slug) misses; every
raised error is `"Not found"`; when both lookups succeed it returns a plain
object carrying the chapter's fields with the book attached. -/
theorem c8_get_by_slug (f : String → Option Nat → Option Book) (db : Db)
    (bookSlug chapterSlug : String) (userId : Option Nat) (isAdmin : Bool) :
    ((∃ obj, getBySlug f db bookSlug chapterSlug userId isAdmin = .ok obj) ↔
      ∃ bk, f bookSlug userId = some bk ∧
        ∃ ch, db.chapters.find?
          (fun c => c.bookId == bk.id && c.slug == chapterSlug) = some ch)
    ∧ (∀ e, getBySlug f db bookSlug chapterSlug userId isAdmin = .error e →
        e = "Not found")
    ∧ (∀ bk ch, f bookSlug userId = some bk →
        db.chapters.find? (fun c => c.bookId == bk.id && c.slug == chapterSlug)
          = some ch →
        getBySlug f db bookSlug chapterSlug userId isAdmin
          = .ok (getBySlugObj db bk ch userId isAdmin)
        ∧ (getBySlugObj db bk ch userId isAdmin).book = bk
        ∧ (getBySlugObj db bk ch userId isAdmin).id = ch.id
        ∧ (getBySlugObj db bk ch userId isAdmin).bookId = ch.bookId
        ∧ (getBySlugObj db bk ch userId isAdmin).isFree = ch.isFree
        ∧ (getBySlugObj db bk ch userId isAdmin).githubFilePath = ch.githubFilePath
        ∧ (getBySlugObj db bk ch userId isAdmin).title = ch.title
        ∧ (getBySlugObj db bk ch userId isAdmin).slug = ch.slug
        ∧ (getBySlugObj db bk ch userId isAdmin).excerpt = ch.excerpt
        ∧ (getBySlugObj db bk ch userId isAdmin).htmlContent = ch.htmlContent
        ∧ (getBySlugObj db bk ch userId isAdmin).createdAt = ch.createdAt
        ∧ (getBySlugObj db bk ch userId isAdmin).order = ch.order
        ∧ (getBySlugObj db bk ch userId isAdmin).seoTitle = ch.seoTitle
        ∧ (getBySlugObj db bk ch userId isAdmin).seoDescription = ch.seoDescription
        ∧ (getBySlugObj db bk ch userId isAdmin).sections = ch.sections
        ∧ ((getBySlugObj db bk ch userId isAdmin).content = some ch.content
            ∨ (getBySlugObj db bk ch userId isAdmin).content = none)) := by
  refine ⟨?_, ?_, ?_⟩
  · cases hbf : f bookSlug userId with
    | none => simp [getBySlug, hbf]
    | some bk =>
      cases hcf : db.chapters.find?
          (fun c => c.bookId == bk.id && c.slug == chapterSlug) with
      | none => simp [getBySlug, hbf, hcf]
      | some ch => simp [getBySlug, hbf, hcf]
  · intro e he
    cases hbf : f bookSlug userId with
    | none => simp [getBySlug, hbf] at he; exact he.symm
    | some bk =>
      cases hcf : db.chapters.find?
          (fun c => c.bookId == bk.id && c.slug == chapterSlug) with
      | none => simp [getBySlug, hbf, hcf] at he; exact he.symm
      | some ch => simp [getBySlug, hbf, hcf] at he
  · intro bk ch hbf hcf
    exact ⟨by simp [getBySlug, hbf, hcf], getBySlugObj_fields db bk ch userId isAdmin⟩

/-- C8 witness: the theorem applied to the store `dbOne`, where both
lookups succeed. -/
theorem c8_get_by_slug_witness :
    getBySlug bookFnA dbOne "bs" "t" (some 7) false
      = .ok (getBySlugObj dbOne ⟨10, "bs"⟩ chapA (some 7) false)
    ∧ (getBySlugObj dbOne ⟨10, "bs"⟩ chapA (some 7) false).book = ⟨10, "bs"⟩ :=
  ⟨((c8_get_by_slug bookFnA dbOne "bs" "t" (some 7) false).2.2 ⟨10, "bs"⟩ chapA
      rfl (by decide)).1,
   ((c8_get_by_slug bookFnA dbOne "bs" "t" (some 7) false).2.2 ⟨10, "bs"⟩ chapA
      rfl (by decide)).2.1⟩

/-- The `$set` modifier never touches `_id`, `bookId`, `githubFilePath` or
`createdAt`. -/
theorem applyModifier_preserves (c : Chapter) (m : Modifier) :
    (applyModifier c m).id = c.id ∧ (applyModifier c m).bookId = c.bookId
    ∧ (applyModifier c m).githubFilePath = c.githubFilePath
    ∧ (applyModifier c m).createdAt = c.createdAt := by
  cases h : m.titleSlug <;> simp [applyModifier, h]

/-- The `$set` modifier writes every always-present field. -/
theorem applyModifier_sets (c : Chapter) (m : Modifier) :
    (applyModifier c m).content = m.content
    ∧ (applyModifier c m).htmlContent = m.htmlContent
    ∧ (applyModifier c m).sections = m.sections
    ∧ (applyModifier c m).excerpt = m.excerpt
    ∧ (applyModifier c m).isFree = m.isFree
    ∧ (applyModifier c m).order = m.order
    ∧ (applyModifier c m).seoTitle = m.seoTitle
    ∧ (applyModifier c m).seoDescription = m.seoDescription := by
  cases h : m.titleSlug <;> simp [applyModifier, h]

/-- Without a title change the modifier leaves `title` and `slug` alone. -/
theorem applyModifier_titleSlug_none (c : Chapter) (m : Modifier)
    (h : m.titleSlug = none) :
    (applyModifier c m).title = c.title ∧ (applyModifier c m).slug = c.slug := by
  simp [applyModifier, h]

/-- With a title change the modifier writes `title` and `slug`. -/
theorem applyModifier_titleSlug_some (c : Chapter) (m : Modifier)
    (t s : String) (h : m.titleSlug = some (t, s)) :
    (applyModifier c m).title = t ∧ (applyModifier c m).slug = s := by
  simp [applyModifier, h]

/-- A `$set` whose values already all agree with the stored document
leaves that document unchanged. -/
theorem applyModifier_eq_self (c : Chapter) (m : Modifier)
    (hts : m.titleSlug = none)
    (h1 : c.content = m.content) (h2 : c.htmlContent = m.htmlContent)
    (h3 : c.sections = m.sections) (h4 : c.excerpt = m.excerpt)
    (h5 : c.isFree = m.isFree) (h6 : c.order = m.order)
    (h7 : c.seoTitle = m.seoTitle) (h8 : c.seoDescription = m.seoDescription) :
    applyModifier c m = c := by
  cases c
  simp_all [applyModifier]

/-- The modifier regenerates title and slug exactly on a title change. -/
theorem mkModifier_titleSlug (env : RenderEnv) (chapters : List Chapter)
    (data : SyncData) (ch : Chapter) :
    ((mkModifier env chapters data ch).titleSlug.isSome ↔ data.title ≠ ch.title)
    ∧ (data.title = ch.title → (mkModifier env chapters data ch).titleSlug = none)
    ∧ (data.title ≠ ch.title → (mkModifier env chapters data ch).titleSlug
        = some (data.title, env.genSlug data.title ch.bookId chapters)) := by
  by_cases h : data.title = ch.title <;> simp [mkModifier, h]

/-- After a `$set` built from the payload, the stored title equals the
payload title, whether or not the modifier carried a title. -/
theorem applyModifier_mk_title (env : RenderEnv) (chapters : List Chapter)
    (data : SyncData) (ch : Chapter) :
    (applyModifier ch (mkModifier env chapters data ch)).title = data.title := by
  by_cases h : data.title = ch.title
  · rw [(applyModifier_titleSlug_none ch _
      ((mkModifier_titleSlug env chapters data ch).2.1 h)).1]
    exact h.symm
  · exact (applyModifier_titleSlug_some ch _ data.title _
      ((mkModifier_titleSlug env chapters data ch).2.2 h)).1

/-- `find?` commutes with a map that does not disturb the predicate. -/
theorem find?_map_pred_preserving {p : Chapter → Bool} (f : Chapter → Chapter)
    (l : List Chapter) (hf : ∀ c, p (f c) = p c) :
    (l.map f).find? p = (l.find? p).map f := by
  rw [List.find?_map, show p ∘ f = p from funext hf]

/-- After one `syncContent` pass, the collection holds a chapter found by
the `(bookId, githubFilePath)` query whose title equals the payload title,
and every document sharing its id carries the payload-derived values in all
always-written fields. -/
theorem syncContent_first_pass (env : RenderEnv) (chapters : List Chapter)
    (book : Book) (data : SyncData) (freshId now : Nat)
    (hfresh : ∀ c ∈ chapters, c.id ≠ freshId) :
    ∃ ch1, (syncContent env chapters book data freshId now).find?
        (chapterSyncPred book data) = some ch1
      ∧ ch1.title = data.title
      ∧ ∀ c ∈ syncContent env chapters book data freshId now, c.id = ch1.id →
          (c.content = data.body ∧ c.htmlContent = env.render data.body
           ∧ c.sections = getSections (env.headings data.body)
           ∧ c.excerpt = env.renderExcerpt data.excerpt
           ∧ c.isFree = data.isFree ∧ c.order = deriveOrder data.path
           ∧ c.seoTitle = data.seoTitle ∧ c.seoDescription = data.seoDescription) := by
  cases hfind : chapters.find? (chapterSyncPred book data) with
  | none =>
    simp only [syncContent, hfind]
    refine ⟨newChapter env chapters book data freshId now, ?_, rfl, ?_⟩
    · rw [List.find?_append, hfind]
      simp [chapterSyncPred, newChapter]
    · intro c hc hcid
      rcases List.mem_append.mp hc with hmem | hmem
      · exact absurd hcid (hfresh c hmem)
      · rw [List.mem_singleton.mp hmem]
        exact ⟨rfl, rfl, rfl, rfl, rfl, rfl, rfl, rfl⟩
  | some ch =>
    simp only [syncContent, hfind]
    have hpres : ∀ c, chapterSyncPred book data
        (updateBy (mkModifier env chapters data ch) ch.id c)
        = chapterSyncPred book data c := by
      intro c
      by_cases hcid : (c.id == ch.id) = true
      · simp only [updateBy, if_pos hcid]
        simp [chapterSyncPred,
          (applyModifier_preserves c (mkModifier env chapters data ch)).2.1,
          (applyModifier_preserves c (mkModifier env chapters data ch)).2.2.1]
      · simp only [updateBy, if_neg hcid]
    have hupd : updateBy (mkModifier env chapters data ch) ch.id ch
        = applyModifier ch (mkModifier env chapters data ch) := by
      simp [updateBy]
    refine ⟨applyModifier ch (mkModifier env chapters data ch), ?_, ?_, ?_⟩
    · rw [find?_map_pred_preserving _ _ hpres, hfind, Option.map_some', hupd]
    · exact applyModifier_mk_title env chapters data ch
    · intro c hc hcid
      obtain ⟨c0, _, hc0⟩ := List.mem_map.mp hc
      by_cases hcid0 : (c0.id == ch.id) = true
      · have : c = applyModifier c0 (mkModifier env chapters data ch) := by
          rw [← hc0]
          simp [updateBy, hcid0]
        rw [this]
        exact ⟨(applyModifier_sets c0 _).1, (applyModifier_sets c0 _).2.1,
          (applyModifier_sets c0 _).2.2.1, (applyModifier_sets c0 _).2.2.2.1,
          (applyModifier_sets c0 _).2.2.2.2.1, (applyModifier_sets c0 _).2.2.2.2.2.1,
          (applyModifier_sets c0 _).2.2.2.2.2.2.1,
          (applyModifier_sets c0 _).2.2.2.2.2.2.2⟩
      · have hcc0 : c = c0 := by
          rw [← hc0]
          simp [updateBy, hcid0]
        rw [hcc0,
          (applyModifier_preserves ch (mkModifier env chapters data ch)).1] at hcid
        exact absurd (by simp [hcid] : (c0.id == ch.id) = true) hcid0

/-- A second `syncContent` pass over a collection already carrying the
payload values is the identity: the found chapter's title matches the
payload, so the modifier carries no title or slug, and its `$set` rewrites
every touched document with the values it already holds. -/
theorem syncContent_second_pass (env : RenderEnv) (book : Book)
    (data : SyncData) (freshId2 now2 : Nat) (S1 : List Chapter) (ch1 : Chapter)
    (hfind2 : S1.find? (chapterSyncPred book data) = some ch1)
    (htitle : ch1.title = data.title)
    (hsame : ∀ c ∈ S1, c.id = ch1.id →
      (c.content = data.body ∧ c.htmlContent = env.render data.body
       ∧ c.sections = getSections (env.headings data.body)
       ∧ c.excerpt = env.renderExcerpt data.excerpt
       ∧ c.isFree = data.isFree ∧ c.order = deriveOrder data.path
       ∧ c.seoTitle = data.seoTitle ∧ c.seoDescription = data.seoDescription)) :
    syncContent env S1 book data freshId2 now2 = S1 := by
  have hm2 : (mkModifier env S1 data ch1).titleSlug = none :=
    (mkModifier_titleSlug env S1 data ch1).2.1 htitle.symm
  simp only [syncContent, hfind2]
  have hpt : ∀ c ∈ S1, updateBy (mkModifier env S1 data ch1) ch1.id c = id c := by
    intro c hc
    by_cases hcid : (c.id == ch1.id) = true
    · obtain ⟨f1, f2, f3, f4, f5, f6, f7, f8⟩ := hsame c hc (by simpa using hcid)
      simp only [updateBy, if_pos hcid, id]
      exact applyModifier_eq_self c _ hm2 f1 f2 f3 f4 f5 f6 f7 f8
    · simp only [updateBy, if_neg hcid, id]
  exact (List.map_congr_left hpt).trans (List.map_id S1)

/-- C3: calling `syncContent` twice with identical input leaves the chapter
collection exactly as one call does, and the second call never regenerates
the slug: after the first call the stored title already equals the payload
title, so the second modifier carries no title/slug entry.  The hypothesis
says the id minted for a potential insert is unused, which the store
guarantees for its generated ids. -/
theorem c3_sync_idempotent (env : RenderEnv) (chapters : List Chapter)
    (book : Book) (data : SyncData) (freshId now freshId2 now2 : Nat)
    (hfresh : ∀ c ∈ chapters, c.id ≠ freshId) :
    syncContent env (syncContent env chapters book data freshId now) book data
        freshId2 now2
      = syncContent env chapters book data freshId now
    ∧ ∀ ch, (syncContent env chapters book data freshId now).find?
          (chapterSyncPred book data) = some ch →
        (mkModifier env (syncContent env chapters book data freshId now) data
          ch).titleSlug = none := by
  obtain ⟨ch1, hfind2, htitle, hsame⟩ :=
    syncContent_first_pass env chapters book data freshId now hfresh
  constructor
  · exact syncContent_second_pass env book data freshId2 now2 _ ch1 hfind2
      htitle hsame
  · intro ch hch
    rw [hfind2, Option.some.injEq] at hch
    rw [hch] at htitle
    exact (mkModifier_titleSlug env _ data ch).2.1 htitle.symm

/-- C3 witness: the theorem applied to the empty collection — the first
call creates the chapter, the second call leaves the collection as is. -/
theorem c3_sync_idempotent_witness :
    syncContent envA
        (syncContent envA [] ⟨10, "bs"⟩
          ⟨"T", "E", false, "st", "sd", "B", "chapter-1.md"⟩ 5 100)
        ⟨10, "bs"⟩ ⟨"T", "E", false, "st", "sd", "B", "chapter-1.md"⟩ 6 200
      = syncContent envA [] ⟨10, "bs"⟩
          ⟨"T", "E", false, "st", "sd", "B", "chapter-1.md"⟩ 5 100 :=
  (c3_sync_idempotent envA [] ⟨10, "bs"⟩
    ⟨"T", "E", false, "st", "sd", "B", "chapter-1.md"⟩ 5 100 6 200
    (by simp)).1

/-- C6: when `syncContent` finds an existing chapter by
`(bookId, githubFilePath)`, it updates it (and only it) with a `$set`
modifier carrying all mutable fields — content, rendered HTML, sections,
rendered excerpt, free flag, derived order and both SEO fields — and the
modifier carries `title` and a regenerated `slug` if and only if the
payload title differs from the stored chapter's title. -/
theorem c6_update_fields (env : RenderEnv) (chapters : List Chapter)
    (book : Book) (data : SyncData) (freshId now : Nat) (ch : Chapter)
    (hfind : chapters.find? (chapterSyncPred book data) = some ch) :
    syncContent env chapters book data freshId now
      = chapters.map (updateBy (mkModifier env chapters data ch) ch.id)
    ∧ ((mkModifier env chapters data ch).titleSlug.isSome ↔ data.title ≠ ch.title)
    ∧ (mkModifier env chapters data ch).content = data.body
    ∧ (mkModifier env chapters data ch).htmlContent = env.render data.body
    ∧ (mkModifier env chapters data ch).sections
        = getSections (env.headings data.body)
    ∧ (mkModifier env chapters data ch).excerpt = env.renderExcerpt data.excerpt
    ∧ (mkModifier env chapters data ch).isFree = data.isFree
    ∧ (mkModifier env chapters data ch).order = deriveOrder data.path
    ∧ (mkModifier env chapters data ch).seoTitle = data.seoTitle
    ∧ (mkModifier env chapters data ch).seoDescription = data.seoDescription
    ∧ (data.title = ch.title → (mkModifier env chapters data ch).titleSlug = none)
    ∧ (data.title ≠ ch.title → (mkModifier env chapters data ch).titleSlug
        = some (data.title, env.genSlug data.title ch.bookId chapters)) :=
  ⟨by simp [syncContent, hfind],
   (mkModifier_titleSlug env chapters data ch).1,
   rfl, rfl, rfl, rfl, rfl, rfl, rfl, rfl,
   (mkModifier_titleSlug env chapters data ch).2.1,
   (mkModifier_titleSlug env chapters data ch).2.2⟩

/-- C6 witness: the theorem applied to the store `[chapA]` with a payload
whose path matches `chapA` and whose title is unchanged. -/
theorem c6_update_fields_witness :
    syncContent envA [chapA] ⟨10, "bs"⟩
        ⟨"T", "E", true, "st", "sd", "B", "chapter-1.md"⟩ 5 100
      = [chapA].map
          (updateBy (mkModifier envA [chapA]
            ⟨"T", "E", true, "st", "sd", "B", "chapter-1.md"⟩ chapA) chapA.id)
    ∧ (mkModifier envA [chapA]
        ⟨"T", "E", true, "st", "sd", "B", "chapter-1.md"⟩ chapA).titleSlug = none :=
  ⟨(c6_update_fields envA [chapA] ⟨10, "bs"⟩
      ⟨"T", "E", true, "st", "sd", "B", "chapter-1.md"⟩ 5 100 chapA (by decide)).1,
   (c6_update_fields envA [chapA] ⟨10, "bs"⟩
      ⟨"T", "E", true, "st", "sd", "B", "chapter-1.md"⟩ 5 100 chapA (by decide)).2.2.2.2.2.2.2.2.2.2.1
     rfl⟩
